import Mathlib

/-!
Shallow embedding of the hardware-control and device-interface components of
the rm01-esp32s3-bsp firmware (src/components/hardware_control/hardware_control.c
and src/components/device_interface/device_interface.c), together with proofs
of the specification's testable properties.

Modelling conventions:
* Machine integers (`uint8_t`, `uint32_t`) are modelled as `Nat`; every
  arithmetic expression in the embedded code stays far below any wrap-around
  bound (products are at most 255 * 100), so no explicit modular reduction is
  needed for the embedded expressions.
* ESP-IDF error codes are the inductive `EspErr`; `ESP_OK` is `.ok`,
  `ESP_ERR_INVALID_ARG` is `.invalidArg`, `ESP_ERR_INVALID_STATE` is
  `.invalidState`, and any underlying-driver failure code is `.fail`.
* Fallible external driver primitives (`gpio_set_direction`, `gpio_set_level`,
  `led_strip_set_pixel`, `led_strip_refresh`, `nvs_open`) draw their outcome
  from an explicit fault oracle `World.faults : List Bool` carried in the
  state: each such call consumes one entry (`true` = the driver call fails);
  an exhausted oracle means every remaining call succeeds.  The `ledc_*` calls
  in `fan_set_speed` are wrapped in `ESP_ERROR_CHECK` in the source (failure
  aborts the program rather than returning), so they are modelled as
  infallible state updates.
* `vTaskDelay` only suspends the task; it is a no-op on the modelled state.
* Physical pin levels are modelled as a write log (`World.pins`, most recent
  write first) read back through `pinLevel`; pin direction configuration is
  logged in `World.dirs` the same way.
* The five core setters that the config-persistence path invokes additionally
  append a ghost record of their invocation (with arguments) to
  `World.callLog`; this instrumentation never influences behaviour and exists
  only to let call-order properties be stated.
-/

/-- `esp_err_t` values that the embedded code can produce. -/
inductive EspErr where
  | ok
  | invalidArg
  | invalidState
  | fail
  deriving DecidableEq, Repr

/-- `gpio_state_t`: `GPIO_STATE_LOW = 0`, `GPIO_STATE_HIGH = 1`. -/
inductive GpioSt where
  | low
  | high
  deriving DecidableEq, Repr

/-- `led_color_t`: three 8-bit channels. -/
structure LedColor where
  red : Nat
  green : Nat
  blue : Nat
  deriving DecidableEq, Repr

/-- `usb_mux_target_t`. -/
inductive UsbMuxTarget where
  | esp32s3
  | agx
  | n305
  deriving DecidableEq, Repr

/-- `power_state_t`. -/
inductive PowerState where
  | off
  | on
  | unknown
  deriving DecidableEq, Repr

/-- `hardware_status_t`: the single mutable status record. -/
structure HardwareStatus where
  initialized : Bool
  fan_speed : Nat
  board_led_color : LedColor
  board_led_brightness : Nat
  touch_led_color : LedColor
  touch_led_brightness : Nat
  usb_mux_target : UsbMuxTarget
  orin_power_state : PowerState
  n305_power_state : PowerState
  deriving DecidableEq, Repr

/-- The zeroed status produced by `memset(&s_hardware_status, 0, ...)`. -/
def zeroStatus : HardwareStatus :=
  { initialized := false
    fan_speed := 0
    board_led_color := ⟨0, 0, 0⟩
    board_led_brightness := 0
    touch_led_color := ⟨0, 0, 0⟩
    touch_led_brightness := 0
    usb_mux_target := .esp32s3
    orin_power_state := .off
    n305_power_state := .off }

/-- Which of the two WS2812 strips an operation addresses. -/
inductive StripId where
  | board
  | touch
  deriving DecidableEq, Repr

/-- Ghost record of one core-setter invocation (used to state call-order
properties of the config-persistence path). -/
inductive CoreCall where
  | fanSpeed (speed : Nat)
  | boardColor (c : LedColor)
  | boardBright (b : Nat)
  | touchColor (c : LedColor)
  | touchBright (b : Nat)
  deriving DecidableEq, Repr

-- Pin and timing constants from hardware_control.h.

def ESP32_MUX1_SEL : Nat := 8
def ESP32_MUX2_SEL : Nat := 48
def ORIN_POWER_PIN : Nat := 3
def ORIN_RESET_PIN : Nat := 1
def ORIN_RECOVERY_PIN : Nat := 40
def N305_POWER_BTN_PIN : Nat := 46
def N305_RESET_PIN : Nat := 2
def BOARD_WS2812_NUM : Nat := 28
def TOUCH_WS2812_NUM : Nat := 1
def DEFAULT_LED_BRIGHTNESS : Nat := 50
def DEFAULT_FAN_SPEED_ON : Nat := 50

/-- The whole mutable state the hardware-control component touches:
its static variables, the physical pin/PWM state, the two LED strip
pixel buffers (`none` models a `NULL` `led_strip_handle_t`), the fault
oracle for fallible driver calls, and the ghost call log. -/
structure World where
  sInit : Bool
  status : HardwareStatus
  pins : List (Nat × GpioSt)
  dirs : List (Nat × Bool)
  ledcDuty : Nat
  ledcCommitted : Nat
  boardStrip : Option (List LedColor)
  touchStrip : Option (List LedColor)
  faults : List Bool
  callLog : List CoreCall
  deriving DecidableEq, Repr

/-- Level last written to a pin (`GPIO_STATE_LOW` if never written). -/
def lookupPin : List (Nat × GpioSt) → Nat → GpioSt
  | [], _ => .low
  | (q, s) :: rest, p => if q = p then s else lookupPin rest p

/-- Current level of a physical pin in a world. -/
def pinLevel (w : World) (p : Nat) : GpioSt :=
  lookupPin w.pins p

/-- Draw the outcome of one fallible driver call from the fault oracle. -/
def nextFault (w : World) : Bool × World :=
  match w.faults with
  | [] => (false, w)
  | b :: rest => (b, { w with faults := rest })

/-- ESP-IDF `gpio_set_direction` (true = `GPIO_MODE_OUTPUT`). -/
def espGpioSetDirection (pin : Nat) (output : Bool) (w : World) : EspErr × World :=
  let (f, w) := nextFault w
  if f then (.fail, w)
  else (.ok, { w with dirs := (pin, output) :: w.dirs })

/-- ESP-IDF `gpio_set_level`. -/
def espGpioSetLevel (pin : Nat) (lvl : GpioSt) (w : World) : EspErr × World :=
  let (f, w) := nextFault w
  if f then (.fail, w)
  else (.ok, { w with pins := (pin, lvl) :: w.pins })

/-- `gpio_set_output`: configure the pin as output, then write the level.
Note: the source performs no initialization check here. -/
def gpio_set_output (pin : Nat) (state : GpioSt) (w : World) : EspErr × World :=
  match espGpioSetDirection pin true w with
  | (.ok, w) => espGpioSetLevel pin state w
  | (e, w) => (e, w)

/-- `gpio_toggle_output`: deprecated; the source simply drives the pin LOW
through `gpio_set_output`. -/
def gpio_toggle_output (pin : Nat) (w : World) : EspErr × World :=
  gpio_set_output pin .low w

-- ==================== Fan ====================

/-- `fan_set_speed`: init check, range check, store speed, then commit the
duty `speed * 255 / 100` (the two `ledc` calls are `ESP_ERROR_CHECK`ed in the
source, hence infallible here). -/
def fan_set_speed (speed : Nat) (w : World) : EspErr × World :=
  let w := { w with callLog := w.callLog ++ [.fanSpeed speed] }
  if !w.sInit then (.invalidState, w)
  else if speed > 100 then (.invalidArg, w)
  else
    let w := { w with status := { w.status with fan_speed := speed } }
    let duty := speed * 255 / 100
    let w := { w with ledcDuty := duty }
    let w := { w with ledcCommitted := w.ledcDuty }
    (.ok, w)

/-- `fan_get_speed`: returns the stored speed unconditionally. -/
def fan_get_speed (w : World) : Nat :=
  w.status.fan_speed

/-- `fan_start`. -/
def fan_start (w : World) : EspErr × World :=
  fan_set_speed DEFAULT_FAN_SPEED_ON w

/-- `fan_stop`. -/
def fan_stop (w : World) : EspErr × World :=
  fan_set_speed 0 w

-- ==================== LED strips ====================

/-- Read a strip's pixel buffer (`none` = `NULL` handle). -/
def stripBuf (w : World) : StripId → Option (List LedColor)
  | .board => w.boardStrip
  | .touch => w.touchStrip

/-- Replace a strip's pixel buffer. -/
def setStripBuf (w : World) (sid : StripId) (buf : List LedColor) : World :=
  match sid with
  | .board => { w with boardStrip := some buf }
  | .touch => { w with touchStrip := some buf }

/-- The `for` loop of `apply_led_color`: write `final` to each listed pixel
index through the fallible `led_strip_set_pixel`, aborting on the first
failure (earlier writes are kept, as in the source). -/
def setPixelsGo (final : LedColor) :
    List Nat → List LedColor → World → EspErr × List LedColor × World
  | [], buf, w => (.ok, buf, w)
  | i :: rest, buf, w =>
    let (f, w) := nextFault w
    if f then (.fail, buf, w)
    else setPixelsGo final rest (buf.set i final) w

/-- `apply_led_color`: scale each channel by `brightness / 100` (integer
truncating division), write the same final value to every pixel, then refresh
(the refresh is one more fallible driver call). -/
def apply_led_color (sid : StripId) (color : LedColor) (brightness : Nat)
    (numLeds : Nat) (w : World) : EspErr × World :=
  match stripBuf w sid with
  | none => (.invalidArg, w)
  | some buf =>
    let final : LedColor :=
      ⟨color.red * brightness / 100, color.green * brightness / 100,
       color.blue * brightness / 100⟩
    match setPixelsGo final (List.range numLeds) buf w with
    | (.ok, buf, w) =>
      let (f, w) := nextFault w
      if f then (.fail, setStripBuf w sid buf)
      else (.ok, setStripBuf w sid buf)
    | (e, buf, w) => (e, setStripBuf w sid buf)

/-- `board_led_set_color`: init check, store the color, then render it with
the currently stored brightness (the color stays stored even if rendering
fails, as in the source). -/
def board_led_set_color (color : LedColor) (w : World) : EspErr × World :=
  let w := { w with callLog := w.callLog ++ [.boardColor color] }
  if !w.sInit then (.invalidState, w)
  else
    let w := { w with status := { w.status with board_led_color := color } }
    apply_led_color .board color w.status.board_led_brightness BOARD_WS2812_NUM w

/-- `board_led_set_brightness`: init check, range check, store the
brightness, then re-render the currently stored color. -/
def board_led_set_brightness (brightness : Nat) (w : World) : EspErr × World :=
  let w := { w with callLog := w.callLog ++ [.boardBright brightness] }
  if !w.sInit then (.invalidState, w)
  else if brightness > 100 then (.invalidArg, w)
  else
    let w := { w with status := { w.status with board_led_brightness := brightness } }
    apply_led_color .board w.status.board_led_color brightness BOARD_WS2812_NUM w

/-- `board_led_turn_off` = set color to `{0,0,0}`. -/
def board_led_turn_off (w : World) : EspErr × World :=
  board_led_set_color ⟨0, 0, 0⟩ w

/-- `touch_led_set_color`. -/
def touch_led_set_color (color : LedColor) (w : World) : EspErr × World :=
  let w := { w with callLog := w.callLog ++ [.touchColor color] }
  if !w.sInit then (.invalidState, w)
  else
    let w := { w with status := { w.status with touch_led_color := color } }
    apply_led_color .touch color w.status.touch_led_brightness TOUCH_WS2812_NUM w

/-- `touch_led_set_brightness`. -/
def touch_led_set_brightness (brightness : Nat) (w : World) : EspErr × World :=
  let w := { w with callLog := w.callLog ++ [.touchBright brightness] }
  if !w.sInit then (.invalidState, w)
  else if brightness > 100 then (.invalidArg, w)
  else
    let w := { w with status := { w.status with touch_led_brightness := brightness } }
    apply_led_color .touch w.status.touch_led_color brightness TOUCH_WS2812_NUM w

/-- `touch_led_turn_off`. -/
def touch_led_turn_off (w : World) : EspErr × World :=
  touch_led_set_color ⟨0, 0, 0⟩ w

/-- `led_effect_t`: `LED_EFFECT_SOLID = 0`, `LED_EFFECT_RAINBOW`. -/
inductive LedEffect where
  | solid
  | rainbow
  deriving DecidableEq, Repr

/-- `hsv_to_rgb`: the source's 60°-sector piecewise-linear HSV→RGB
conversion.  The source computes in C `int`; at the only call site (the
rainbow effect: `hue = i*360/n ∈ [0,360)`, `saturation = value = 100`) every
intermediate stays in `[0,255]`, so `Nat` arithmetic coincides: `m = value -
c` is non-negative because `saturation ≤ 100`, and `60 - |hue % 120 - 60|`
is non-negative because `hue % 120 < 120` (the `abs` is taken over `Int`
exactly as in the source). -/
def hsv_to_rgb (hue saturation value : Nat) : Nat × Nat × Nat :=
  let c := value * saturation / 100
  let x := c * (60 - (((hue % 120 : Nat) : Int) - 60).natAbs) / 60
  let m := value - c
  let rgb :=
    if hue < 60 then (c + m, x + m, m)
    else if hue < 120 then (x + m, c + m, m)
    else if hue < 180 then (m, c + m, x + m)
    else if hue < 240 then (m, x + m, c + m)
    else if hue < 300 then (x + m, m, c + m)
    else (c + m, m, x + m)
  (rgb.1 * 255 / 100, rgb.2.1 * 255 / 100, rgb.2.2 * 255 / 100)

/-- `board_led_set_effect`: the rainbow branch writes a *per-pixel* value
`hsv(i*360/n, 100, 100)` scaled by the current brightness to each pixel and
refreshes once — the stored color is left untouched, so the buffer no longer
matches the render of the stored color.  The pixel writes and the refresh
are `ESP_ERROR_CHECK`ed in the source (failure aborts), hence infallible
here; a `NULL` strip handle would trip that abort and is modelled as an
error return with no state change (unreachable once initialized).  The solid
branch re-invokes `board_led_set_color` with the stored color. -/
def board_led_set_effect (effect : LedEffect) (w : World) : EspErr × World :=
  if !w.sInit then (.invalidState, w)
  else
    match effect with
    | .rainbow =>
      match w.boardStrip with
      | none => (.invalidArg, w)
      | some buf =>
        let buf := (List.range BOARD_WS2812_NUM).foldl
          (fun b i =>
            let hue := i * 360 / BOARD_WS2812_NUM
            let rgb := hsv_to_rgb hue 100 100
            b.set i ⟨rgb.1 * w.status.board_led_brightness / 100,
                     rgb.2.1 * w.status.board_led_brightness / 100,
                     rgb.2.2 * w.status.board_led_brightness / 100⟩)
          buf
        (.ok, { w with boardStrip := some buf })
    | .solid => board_led_set_color w.status.board_led_color w

-- ==================== USB MUX ====================

/-- The fixed 2-bit select encoding of `usb_mux_set_target`
(ESP32S3: 0/0, AGX: 1/0, N305: 1/1; the fourth combination 0/1 is unused). -/
def muxEncoding : UsbMuxTarget → GpioSt × GpioSt
  | .esp32s3 => (.low, .low)
  | .agx => (.high, .low)
  | .n305 => (.high, .high)

/-- `usb_mux_set_target`: init check, write MUX1 then MUX2 through
`gpio_set_output`, and only after both writes succeed update the stored
target. -/
def usb_mux_set_target (target : UsbMuxTarget) (w : World) : EspErr × World :=
  if !w.sInit then (.invalidState, w)
  else
    let enc := muxEncoding target
    match gpio_set_output ESP32_MUX1_SEL enc.1 w with
    | (.ok, w) =>
      match gpio_set_output ESP32_MUX2_SEL enc.2 w with
      | (.ok, w) =>
        (.ok, { w with status := { w.status with usb_mux_target := target } })
      | (e, w) => (e, w)
    | (e, w) => (e, w)

/-- `usb_mux_get_target`: init check, null check on the out pointer (the
non-null case is the one modelled), then return the stored target. -/
def usb_mux_get_target (w : World) : EspErr × UsbMuxTarget :=
  if !w.sInit then (.invalidState, w.status.usb_mux_target)
  else (.ok, w.status.usb_mux_target)

-- ==================== Power sequencer ====================

/-- `orin_power_on`: drive the power pin LOW, then record `On`. -/
def orin_power_on (w : World) : EspErr × World :=
  if !w.sInit then (.invalidState, w)
  else
    match gpio_set_output ORIN_POWER_PIN .low w with
    | (.ok, w) =>
      (.ok, { w with status := { w.status with orin_power_state := .on } })
    | (e, w) => (e, w)

/-- `orin_power_off`: drive the power pin HIGH, then record `Off`. -/
def orin_power_off (w : World) : EspErr × World :=
  if !w.sInit then (.invalidState, w)
  else
    match gpio_set_output ORIN_POWER_PIN .high w with
    | (.ok, w) =>
      (.ok, { w with status := { w.status with orin_power_state := .off } })
    | (e, w) => (e, w)

/-- `orin_reset`: drive the reset pin HIGH, hold 1000 ms, drive it LOW. -/
def orin_reset (w : World) : EspErr × World :=
  if !w.sInit then (.invalidState, w)
  else
    match gpio_set_output ORIN_RESET_PIN .high w with
    | (.ok, w) => gpio_set_output ORIN_RESET_PIN .low w
    | (e, w) => (e, w)

/-- `orin_enter_recovery_mode`: the four-step protocol.  Steps 1 and 3 write
the recovery pin through the raw `gpio_set_level` (the direction call is
commented out in the source); step 2 is `orin_reset`; step 4 switches the USB
mux to AGX.  The first failing step's error is returned and the remaining
steps are not executed. -/
def orin_enter_recovery_mode (w : World) : EspErr × World :=
  if !w.sInit then (.invalidState, w)
  else
    match espGpioSetLevel ORIN_RECOVERY_PIN .high w with
    | (.ok, w) =>
      match orin_reset w with
      | (.ok, w) =>
        match espGpioSetLevel ORIN_RECOVERY_PIN .low w with
        | (.ok, w) => usb_mux_set_target .agx w
        | (e, w) => (e, w)
      | (e, w) => (e, w)
    | (e, w) => (e, w)

/-- `n305_power_toggle`: pulse the power-button pin HIGH for 300 ms then LOW,
and on success flip the stored state (`On → Off`, anything else → `On`). -/
def n305_power_toggle (w : World) : EspErr × World :=
  if !w.sInit then (.invalidState, w)
  else
    match gpio_set_output N305_POWER_BTN_PIN .high w with
    | (.ok, w) =>
      match gpio_set_output N305_POWER_BTN_PIN .low w with
      | (.ok, w) =>
        if w.status.n305_power_state = .on then
          (.ok, { w with status := { w.status with n305_power_state := .off } })
        else
          (.ok, { w with status := { w.status with n305_power_state := .on } })
      | (e, w) => (e, w)
    | (e, w) => (e, w)

/-- `n305_reset`: pulse the reset pin HIGH for 300 ms then LOW; the stored
power state is never touched. -/
def n305_reset (w : World) : EspErr × World :=
  if !w.sInit then (.invalidState, w)
  else
    match gpio_set_output N305_RESET_PIN .high w with
    | (.ok, w) => gpio_set_output N305_RESET_PIN .low w
    | (e, w) => (e, w)

-- ==================== Component init / deinit ====================

/-- `init_fan_pwm`: `ledc_timer_config` and `ledc_channel_config` are
fallible driver calls; the channel is configured with duty 0. -/
def init_fan_pwm (w : World) : EspErr × World :=
  let (f, w) := nextFault w
  if f then (.fail, w)
  else
    let (f, w) := nextFault w
    if f then (.fail, w)
    else (.ok, { w with ledcDuty := 0 })

/-- `init_ws2812`: create the two strip devices (fallible), rolling the board
strip back if the touch strip fails, then clear both buffers
(`ESP_ERROR_CHECK`ed, hence infallible here). -/
def init_ws2812 (w : World) : EspErr × World :=
  let (f, w) := nextFault w
  if f then (.fail, w)
  else
    let w := { w with boardStrip := some (List.replicate BOARD_WS2812_NUM ⟨0, 0, 0⟩) }
    let (f, w) := nextFault w
    if f then (.fail, { w with boardStrip := none })
    else
      let w := { w with touchStrip := some (List.replicate TOUCH_WS2812_NUM ⟨0, 0, 0⟩) }
      (.ok, w)

/-- `init_usb_mux_gpio`: configure both select pins as outputs, drive both
low (the ESP32S3 encoding), and record the default target. -/
def init_usb_mux_gpio (w : World) : EspErr × World :=
  match espGpioSetDirection ESP32_MUX1_SEL true w with
  | (.ok, w) =>
    match espGpioSetDirection ESP32_MUX2_SEL true w with
    | (.ok, w) =>
      match espGpioSetLevel ESP32_MUX1_SEL .low w with
      | (.ok, w) =>
        match espGpioSetLevel ESP32_MUX2_SEL .low w with
        | (.ok, w) =>
          (.ok, { w with status := { w.status with usb_mux_target := .esp32s3 } })
        | (e, w) => (e, w)
      | (e, w) => (e, w)
    | (e, w) => (e, w)
  | (e, w) => (e, w)

/-- One configure-as-output step of `init_power_control_gpio`. -/
def initPowerDir (pin : Nat) (w : World) : EspErr × World :=
  espGpioSetDirection pin true w

/-- `init_power_control_gpio`: configure the five power-control pins as
outputs, drive them all low, then record Orin `On` / N305 `Unknown`. -/
def init_power_control_gpio (w : World) : EspErr × World :=
  match initPowerDir ORIN_POWER_PIN w with
  | (.ok, w) =>
    match initPowerDir ORIN_RESET_PIN w with
    | (.ok, w) =>
      match initPowerDir ORIN_RECOVERY_PIN w with
      | (.ok, w) =>
        match initPowerDir N305_POWER_BTN_PIN w with
        | (.ok, w) =>
          match initPowerDir N305_RESET_PIN w with
          | (.ok, w) =>
            match espGpioSetLevel ORIN_POWER_PIN .low w with
            | (.ok, w) =>
              match espGpioSetLevel ORIN_RESET_PIN .low w with
              | (.ok, w) =>
                match espGpioSetLevel ORIN_RECOVERY_PIN .low w with
                | (.ok, w) =>
                  match espGpioSetLevel N305_POWER_BTN_PIN .low w with
                  | (.ok, w) =>
                    match espGpioSetLevel N305_RESET_PIN .low w with
                    | (.ok, w) =>
                      let st := { w.status with orin_power_state := PowerState.on }
                      let st := { st with n305_power_state := PowerState.unknown }
                      (.ok, { w with status := st })
                    | (e, w) => (e, w)
                  | (e, w) => (e, w)
                | (e, w) => (e, w)
              | (e, w) => (e, w)
            | (e, w) => (e, w)
          | (e, w) => (e, w)
        | (e, w) => (e, w)
      | (e, w) => (e, w)
    | (e, w) => (e, w)
  | (e, w) => (e, w)

/-- `hardware_control_init`: returns `ESP_OK` immediately when already
initialized (no re-initialization); otherwise zeroes the status record, sets
the defaults, and runs the four sub-initializers, aborting on the first
error. -/
def hardware_control_init (w : World) : EspErr × World :=
  if w.sInit then (.ok, w)
  else
    let st := { zeroStatus with
                  board_led_brightness := DEFAULT_LED_BRIGHTNESS
                  touch_led_brightness := DEFAULT_LED_BRIGHTNESS
                  usb_mux_target := .esp32s3
                  orin_power_state := .unknown
                  n305_power_state := .unknown }
    let w := { w with status := st }
    match init_fan_pwm w with
    | (.ok, w) =>
      match init_ws2812 w with
      | (.ok, w) =>
        match init_usb_mux_gpio w with
        | (.ok, w) =>
          match init_power_control_gpio w with
          | (.ok, w) =>
            (.ok, { w with sInit := true,
                           status := { w.status with initialized := true } })
          | (e, w) => (e, w)
        | (e, w) => (e, w)
      | (e, w) => (e, w)
    | (e, w) => (e, w)

/-- `hardware_control_deinit`: returns `ESP_OK` immediately when not
initialized; otherwise stops the fan, turns both strips off (results
ignored), releases the strip handles and clears the initialized flags. -/
def hardware_control_deinit (w : World) : EspErr × World :=
  if !w.sInit then (.ok, w)
  else
    let w := (fan_stop w).2
    let w := (board_led_turn_off w).2
    let w := (touch_led_turn_off w).2
    let w := { w with boardStrip := none, touchStrip := none }
    (.ok, { w with sInit := false,
                   status := { w.status with initialized := false } })

/-- `hardware_control_is_initialized`. -/
def hardware_control_is_initialized (w : World) : Bool :=
  w.sInit

-- ==================== Device interface ====================

/-- The NVS key-value store as seen by the persistence path: each key either
holds a `uint8_t` value or is absent (`nvs_get_u8` then leaves the caller's
default in place). -/
structure Nvs where
  fan_speed : Option Nat
  board_led_r : Option Nat
  board_led_g : Option Nat
  board_led_b : Option Nat
  board_bright : Option Nat
  touch_led_r : Option Nat
  touch_led_g : Option Nat
  touch_led_b : Option Nat
  touch_bright : Option Nat
  deriving DecidableEq, Repr

/-- `device_status_t`, restricted to the fields the orchestrator logic
reads back (the system-info block is telemetry the core never consumes). -/
structure DeviceStatus where
  hardware_available : Bool
  hardware : HardwareStatus
  monitor_available : Bool
  deriving DecidableEq, Repr

/-- The device-interface component's state: the wrapped hardware world plus
its own static variables and the monitor/NVS environment. -/
structure DevWorld where
  hw : World
  devInit : Bool
  enableHw : Bool
  enableMon : Bool
  monInit : Bool
  monRunning : Bool
  lastStatus : DeviceStatus
  nvs : Nvs
  deriving DecidableEq, Repr

/-- `device_get_full_status` (non-null pointer case): zeroes the struct, then
fills in the hardware snapshot when hardware control is enabled and
initialized, and the monitor flag likewise. -/
def device_get_full_status (d : DevWorld) : EspErr × DeviceStatus :=
  if !d.devInit then
    (.invalidState, ⟨false, zeroStatus, false⟩)
  else
    let hwAvail := d.enableHw && d.hw.sInit
    let hwSnap := if hwAvail then d.hw.status else zeroStatus
    let monAvail := d.enableMon && d.monInit
    (.ok, ⟨hwAvail, hwSnap, monAvail⟩)

/-- `device_shutdown_all`: stop the fan and turn both strips off (sub-call
results are not propagated). -/
def device_shutdown_all (d : DevWorld) : EspErr × DevWorld :=
  if !d.devInit then (.invalidState, d)
  else if d.enableHw then
    let w := (fan_stop d.hw).2
    let w := (board_led_turn_off w).2
    let w := (touch_led_turn_off w).2
    (.ok, { d with hw := w })
  else (.ok, d)

/-- `device_enter_sleep_mode`: snapshot the full status into the side buffer,
shut all outputs down, and stop the monitor if it is running. -/
def device_enter_sleep_mode (d : DevWorld) : EspErr × DevWorld :=
  if !d.devInit then (.invalidState, d)
  else
    let snap := (device_get_full_status d).2
    let d := { d with lastStatus := snap }
    let d := (device_shutdown_all d).2
    let d := if d.enableMon && d.monRunning then { d with monRunning := false } else d
    (.ok, d)

/-- `device_wake_up`: restart the monitor if it was stopped, then restore fan
speed, both colors and both brightness values from the side buffer (sub-call
results ignored). -/
def device_wake_up (d : DevWorld) : EspErr × DevWorld :=
  if !d.devInit then (.invalidState, d)
  else
    let d := if d.enableMon && !d.monRunning then { d with monRunning := true } else d
    if d.enableHw && d.lastStatus.hardware_available then
      let w := (fan_set_speed d.lastStatus.hardware.fan_speed d.hw).2
      let w := (board_led_set_color d.lastStatus.hardware.board_led_color w).2
      let w := (board_led_set_brightness d.lastStatus.hardware.board_led_brightness w).2
      let w := (touch_led_set_color d.lastStatus.hardware.touch_led_color w).2
      let w := (touch_led_set_brightness d.lastStatus.hardware.touch_led_brightness w).2
      (.ok, { d with hw := w })
    else (.ok, d)

/-- `load_hardware_config_from_nvs`: skip when hardware control is disabled;
open NVS (fallible); read each key with the in-code defaults for missing
keys; then invoke the five core setters — in the source's order: fan speed,
board brightness, board color, touch brightness, touch color — ignoring their
results. -/
def load_hardware_config_from_nvs (d : DevWorld) : EspErr × DevWorld :=
  if !d.enableHw then (.ok, d)
  else
    let (f, w) := nextFault d.hw
    let d := { d with hw := w }
    if f then (.fail, d)
    else
      let fan := d.nvs.fan_speed.getD 0
      let boardColor : LedColor :=
        ⟨d.nvs.board_led_r.getD 0, d.nvs.board_led_g.getD 0, d.nvs.board_led_b.getD 0⟩
      let touchColor : LedColor :=
        ⟨d.nvs.touch_led_r.getD 0, d.nvs.touch_led_g.getD 0, d.nvs.touch_led_b.getD 0⟩
      let boardBright := d.nvs.board_bright.getD 50
      let touchBright := d.nvs.touch_bright.getD 50
      let w := (fan_set_speed fan d.hw).2
      let w := (board_led_set_brightness boardBright w).2
      let w := (board_led_set_color boardColor w).2
      let w := (touch_led_set_brightness touchBright w).2
      let w := (touch_led_set_color touchColor w).2
      (.ok, { d with hw := w })

/-- `device_load_config`: init check, then the NVS load. -/
def device_load_config (d : DevWorld) : EspErr × DevWorld :=
  if !d.devInit then (.invalidState, d)
  else load_hardware_config_from_nvs d

-- ==================== Helper lemmas ====================

/-- Channel scaling used by `apply_led_color`: integer truncating division. -/
def scaleColor (c : LedColor) (brightness : Nat) : LedColor :=
  ⟨c.red * brightness / 100, c.green * brightness / 100, c.blue * brightness / 100⟩

/-- Two worlds agreeing on everything except the pin/direction logs and the
fault oracle (what a pure GPIO primitive may change). -/
def CoreEq (w w' : World) : Prop :=
  w'.sInit = w.sInit ∧ w'.status = w.status ∧ w'.ledcDuty = w.ledcDuty ∧
  w'.ledcCommitted = w.ledcCommitted ∧ w'.boardStrip = w.boardStrip ∧
  w'.touchStrip = w.touchStrip ∧ w'.callLog = w.callLog

theorem coreEq_refl (w : World) : CoreEq w w := by
  simp [CoreEq]

theorem coreEq_trans {w1 w2 w3 : World} (h1 : CoreEq w1 w2) (h2 : CoreEq w2 w3) :
    CoreEq w1 w3 := by
  obtain ⟨a1, b1, c1, d1, e1, f1, g1⟩ := h1
  obtain ⟨a2, b2, c2, d2, e2, f2, g2⟩ := h2
  exact ⟨a2.trans a1, b2.trans b1, c2.trans c1, d2.trans d1, e2.trans e1,
    f2.trans f1, g2.trans g1⟩

theorem nextFault_coreEq (w : World) : CoreEq w (nextFault w).2 := by
  cases h : w.faults <;> simp [CoreEq, nextFault, h]

theorem nextFault_pins (w : World) : ((nextFault w).2).pins = w.pins := by
  cases h : w.faults <;> simp [nextFault, h]

theorem espGpioSetDirection_coreEq (p : Nat) (o : Bool) (w : World) :
    CoreEq w ((espGpioSetDirection p o w).2) := by
  cases h : w.faults with
  | nil => simp [CoreEq, espGpioSetDirection, nextFault, h]
  | cons b rest => cases b <;> simp [CoreEq, espGpioSetDirection, nextFault, h]

theorem espGpioSetLevel_coreEq (p : Nat) (l : GpioSt) (w : World) :
    CoreEq w ((espGpioSetLevel p l w).2) := by
  cases h : w.faults with
  | nil => simp [CoreEq, espGpioSetLevel, nextFault, h]
  | cons b rest => cases b <;> simp [CoreEq, espGpioSetLevel, nextFault, h]

theorem gpio_set_output_coreEq (p : Nat) (s : GpioSt) (w : World) :
    CoreEq w ((gpio_set_output p s w).2) := by
  rcases h1 : espGpioSetDirection p true w with ⟨e1, w1⟩
  have hc1 : CoreEq w w1 := by
    have := espGpioSetDirection_coreEq p true w
    rwa [h1] at this
  cases e1 <;>
    simp only [gpio_set_output, h1] <;>
    first
      | exact hc1
      | exact coreEq_trans hc1 (espGpioSetLevel_coreEq p s w1)

theorem gpio_set_output_status (p : Nat) (s : GpioSt) (w : World) :
    ((gpio_set_output p s w).2).status = w.status :=
  (gpio_set_output_coreEq p s w).2.1

theorem espGpioSetLevel_pins_ok (p : Nat) (l : GpioSt) (w : World)
    (h : (espGpioSetLevel p l w).1 = .ok) :
    ((espGpioSetLevel p l w).2).pins = (p, l) :: w.pins := by
  cases hf : w.faults with
  | nil => simp [espGpioSetLevel, nextFault, hf]
  | cons b rest =>
    cases b <;> simp_all [espGpioSetLevel, nextFault, hf]

theorem espGpioSetLevel_pins_err (p : Nat) (l : GpioSt) (w : World)
    (h : (espGpioSetLevel p l w).1 ≠ .ok) :
    ((espGpioSetLevel p l w).2).pins = w.pins := by
  cases hf : w.faults with
  | nil => simp_all [espGpioSetLevel, nextFault, hf]
  | cons b rest =>
    cases b <;> simp_all [espGpioSetLevel, nextFault, hf]

theorem espGpioSetDirection_pins (p : Nat) (o : Bool) (w : World) :
    ((espGpioSetDirection p o w).2).pins = w.pins := by
  cases hf : w.faults with
  | nil => simp [espGpioSetDirection, nextFault, hf]
  | cons b rest =>
    cases b <;> simp [espGpioSetDirection, nextFault, hf]

theorem espGpioSetDirection_faults_ok (p : Nat) (o : Bool) (w : World)
    (h : (espGpioSetDirection p o w).1 = .ok) :
    ((espGpioSetDirection p o w).2).faults = w.faults.tail := by
  cases hf : w.faults with
  | nil => simp [espGpioSetDirection, nextFault, hf]
  | cons b rest =>
    cases b <;> simp_all [espGpioSetDirection, nextFault, hf]

theorem gpio_set_output_pins_ok (p : Nat) (s : GpioSt) (w : World)
    (h : (gpio_set_output p s w).1 = .ok) :
    ((gpio_set_output p s w).2).pins = (p, s) :: w.pins := by
  rcases h1 : espGpioSetDirection p true w with ⟨e1, w1⟩
  have hp1 : w1.pins = w.pins := by
    have := espGpioSetDirection_pins p true w
    rwa [h1] at this
  cases e1 <;> simp_all [gpio_set_output, h1] <;>
    rw [espGpioSetLevel_pins_ok p s w1 h, hp1]

theorem gpio_set_output_pins_err (p : Nat) (s : GpioSt) (w : World)
    (h : (gpio_set_output p s w).1 ≠ .ok) :
    ((gpio_set_output p s w).2).pins = w.pins := by
  rcases h1 : espGpioSetDirection p true w with ⟨e1, w1⟩
  have hp1 : w1.pins = w.pins := by
    have := espGpioSetDirection_pins p true w
    rwa [h1] at this
  cases e1 <;> simp_all [gpio_set_output, h1] <;>
    rw [espGpioSetLevel_pins_err p s w1 h, hp1]

theorem pinLevel_cons_ne (q : Nat) (p : Nat) (s : GpioSt) (rest : List (Nat × GpioSt))
    (h : p ≠ q) : lookupPin ((p, s) :: rest) q = lookupPin rest q := by
  simp [lookupPin, h]

theorem gpio_set_output_pinLevel_ne (p : Nat) (s : GpioSt) (w : World) (q : Nat)
    (hq : p ≠ q) :
    pinLevel ((gpio_set_output p s w).2) q = pinLevel w q := by
  by_cases h : (gpio_set_output p s w).1 = .ok
  · rw [pinLevel, gpio_set_output_pins_ok p s w h, pinLevel_cons_ne q p s w.pins hq]
    rfl
  · rw [pinLevel, gpio_set_output_pins_err p s w h]
    rfl

theorem espGpioSetLevel_pinLevel_ne (p : Nat) (l : GpioSt) (w : World) (q : Nat)
    (hq : p ≠ q) :
    pinLevel ((espGpioSetLevel p l w).2) q = pinLevel w q := by
  by_cases h : (espGpioSetLevel p l w).1 = .ok
  · rw [pinLevel, espGpioSetLevel_pins_ok p l w h, pinLevel_cons_ne q p l w.pins hq]
    rfl
  · rw [pinLevel, espGpioSetLevel_pins_err p l w h]
    rfl

-- Fault-free evaluation of the GPIO primitives.

theorem espGpioSetLevel_nofault (p : Nat) (l : GpioSt) (w : World) (h : w.faults = []) :
    espGpioSetLevel p l w = (.ok, { w with pins := (p, l) :: w.pins }) := by
  simp [espGpioSetLevel, nextFault, h]

theorem espGpioSetDirection_nofault (p : Nat) (o : Bool) (w : World) (h : w.faults = []) :
    espGpioSetDirection p o w = (.ok, { w with dirs := (p, o) :: w.dirs }) := by
  simp [espGpioSetDirection, nextFault, h]

theorem gpio_set_output_nofault (p : Nat) (s : GpioSt) (w : World) (h : w.faults = []) :
    gpio_set_output p s w =
      (.ok, { w with dirs := (p, true) :: w.dirs, pins := (p, s) :: w.pins }) := by
  simp [gpio_set_output, espGpioSetDirection, espGpioSetLevel, nextFault, h]

-- Fault-free evaluation of the LED rendering path.

theorem setPixelsGo_nofault (final : LedColor) (l : List Nat) :
    ∀ (buf : List LedColor) (w : World), w.faults = [] →
      setPixelsGo final l buf w =
        (.ok, l.foldl (fun b i => b.set i final) buf, w) := by
  induction l with
  | nil => intro buf w h; simp [setPixelsGo]
  | cons i rest ih =>
    intro buf w h
    rw [setPixelsGo]
    simp only [nextFault, h]
    simpa using ih (buf.set i final) w h

theorem foldl_set_getElem? (v : LedColor) (l : List Nat) :
    ∀ (buf : List LedColor) (j : Nat),
      (l.foldl (fun b i => b.set i v) buf)[j]? =
        if j ∈ l ∧ j < buf.length then some v else buf[j]? := by
  induction l with
  | nil => intro buf j; simp
  | cons i rest ih =>
    intro buf j
    rw [List.foldl_cons, ih (buf.set i v) j]
    by_cases hij : i = j
    · subst hij
      by_cases hlen : i < buf.length
      · by_cases hmem : i ∈ rest <;>
          simp [hmem, hlen, List.getElem?_set, List.length_set]
      · have hnone : buf[i]? = none := List.getElem?_eq_none (by omega)
        by_cases hmem : i ∈ rest <;>
          simp [hmem, hlen, List.getElem?_set, List.length_set, hnone]
    · have hji : ¬j = i := fun h => hij h.symm
      have hset : (buf.set i v)[j]? = buf[j]? := List.getElem?_set_ne hij
      by_cases hmem : j ∈ rest <;>
        simp [hmem, hij, hji, List.length_set, hset]

theorem foldl_set_range (v : LedColor) (n : Nat) (buf : List LedColor)
    (h : buf.length = n) :
    (List.range n).foldl (fun b i => b.set i v) buf = List.replicate n v := by
  apply List.ext_getElem?
  intro j
  rw [foldl_set_getElem?]
  by_cases hj : j < n
  · simp [List.mem_range, hj, h, List.getElem?_replicate]
  · have : buf[j]? = none := List.getElem?_eq_none (by omega)
    simp [List.mem_range, hj, h, this, List.getElem?_replicate]

theorem apply_led_color_nofault (sid : StripId) (color : LedColor)
    (bright numLeds : Nat) (w : World) (buf : List LedColor)
    (hb : stripBuf w sid = some buf) (hlen : buf.length = numLeds)
    (hf : w.faults = []) :
    apply_led_color sid color bright numLeds w =
      (.ok, setStripBuf w sid (List.replicate numLeds (scaleColor color bright))) := by
  simp only [apply_led_color, hb]
  rw [setPixelsGo_nofault _ _ _ _ hf]
  simp [nextFault, hf, foldl_set_range _ _ _ hlen, scaleColor]

-- Fault-free evaluation of the core setters.

theorem fan_set_speed_ok (s : Nat) (w : World) (hi : w.sInit = true)
    (hr : s ≤ 100) :
    fan_set_speed s w =
      (.ok, { w with callLog := w.callLog ++ [.fanSpeed s]
                     status := { w.status with fan_speed := s }
                     ledcDuty := s * 255 / 100
                     ledcCommitted := s * 255 / 100 }) := by
  have : ¬s > 100 := by omega
  simp [fan_set_speed, hi, this]

theorem board_led_set_color_nofault (c : LedColor) (w : World) (buf : List LedColor)
    (hi : w.sInit = true) (hb : w.boardStrip = some buf)
    (hlen : buf.length = BOARD_WS2812_NUM) (hf : w.faults = []) :
    board_led_set_color c w =
      (.ok, { w with callLog := w.callLog ++ [.boardColor c]
                     status := { w.status with board_led_color := c }
                     boardStrip := some (List.replicate BOARD_WS2812_NUM
                       (scaleColor c w.status.board_led_brightness)) }) := by
  simp only [board_led_set_color, hi, Bool.not_true, Bool.false_eq_true, if_false]
  rw [apply_led_color_nofault _ _ _ _ _ buf (by simpa [stripBuf] using hb) hlen (by simpa using hf)]
  simp [setStripBuf]

theorem board_led_set_brightness_nofault (b : Nat) (w : World) (buf : List LedColor)
    (hi : w.sInit = true) (hb : w.boardStrip = some buf)
    (hlen : buf.length = BOARD_WS2812_NUM) (hf : w.faults = []) (hr : b ≤ 100) :
    board_led_set_brightness b w =
      (.ok, { w with callLog := w.callLog ++ [.boardBright b]
                     status := { w.status with board_led_brightness := b }
                     boardStrip := some (List.replicate BOARD_WS2812_NUM
                       (scaleColor w.status.board_led_color b)) }) := by
  have hno : ¬b > 100 := by omega
  simp only [board_led_set_brightness, hi, Bool.not_true, Bool.false_eq_true, if_false,
    hno, if_false]
  rw [apply_led_color_nofault _ _ _ _ _ buf (by simpa [stripBuf] using hb) hlen (by simpa using hf)]
  simp [setStripBuf]

theorem touch_led_set_color_nofault (c : LedColor) (w : World) (buf : List LedColor)
    (hi : w.sInit = true) (hb : w.touchStrip = some buf)
    (hlen : buf.length = TOUCH_WS2812_NUM) (hf : w.faults = []) :
    touch_led_set_color c w =
      (.ok, { w with callLog := w.callLog ++ [.touchColor c]
                     status := { w.status with touch_led_color := c }
                     touchStrip := some (List.replicate TOUCH_WS2812_NUM
                       (scaleColor c w.status.touch_led_brightness)) }) := by
  simp only [touch_led_set_color, hi, Bool.not_true, Bool.false_eq_true, if_false]
  rw [apply_led_color_nofault _ _ _ _ _ buf (by simpa [stripBuf] using hb) hlen (by simpa using hf)]
  simp [setStripBuf]

theorem touch_led_set_brightness_nofault (b : Nat) (w : World) (buf : List LedColor)
    (hi : w.sInit = true) (hb : w.touchStrip = some buf)
    (hlen : buf.length = TOUCH_WS2812_NUM) (hf : w.faults = []) (hr : b ≤ 100) :
    touch_led_set_brightness b w =
      (.ok, { w with callLog := w.callLog ++ [.touchBright b]
                     status := { w.status with touch_led_brightness := b }
                     touchStrip := some (List.replicate TOUCH_WS2812_NUM
                       (scaleColor w.status.touch_led_color b)) }) := by
  have hno : ¬b > 100 := by omega
  simp only [touch_led_set_brightness, hi, Bool.not_true, Bool.false_eq_true, if_false,
    hno, if_false]
  rw [apply_led_color_nofault _ _ _ _ _ buf (by simpa [stripBuf] using hb) hlen (by simpa using hf)]
  simp [setStripBuf]

-- Behaviour of the power-sequencer primitives under arbitrary fault oracles.

theorem orin_reset_coreEq (w : World) : CoreEq w ((orin_reset w).2) := by
  by_cases hi : w.sInit
  · rcases h1 : gpio_set_output ORIN_RESET_PIN .high w with ⟨e1, w1⟩
    have hc1 : CoreEq w w1 := by
      have := gpio_set_output_coreEq ORIN_RESET_PIN .high w
      rwa [h1] at this
    cases e1 <;>
      simp only [orin_reset, hi, Bool.not_true, Bool.false_eq_true, if_false, h1] <;>
      first
        | exact hc1
        | exact coreEq_trans hc1 (gpio_set_output_coreEq ORIN_RESET_PIN .low w1)
  · simp only [orin_reset, Bool.not_eq_true'] at *
    simp [Bool.of_not_eq_true hi, coreEq_refl]

theorem orin_reset_pinLevel_recovery (w : World) :
    pinLevel ((orin_reset w).2) ORIN_RECOVERY_PIN = pinLevel w ORIN_RECOVERY_PIN := by
  have hne : ORIN_RESET_PIN ≠ ORIN_RECOVERY_PIN := by decide
  by_cases hi : w.sInit
  · rcases h1 : gpio_set_output ORIN_RESET_PIN .high w with ⟨e1, w1⟩
    have hp1 : pinLevel w1 ORIN_RECOVERY_PIN = pinLevel w ORIN_RECOVERY_PIN := by
      have := gpio_set_output_pinLevel_ne ORIN_RESET_PIN .high w ORIN_RECOVERY_PIN hne
      rwa [h1] at this
    cases e1 <;>
      simp only [orin_reset, hi, Bool.not_true, Bool.false_eq_true, if_false, h1] <;>
      first
        | exact hp1
        | exact (gpio_set_output_pinLevel_ne ORIN_RESET_PIN .low w1
            ORIN_RECOVERY_PIN hne).trans hp1
  · simp only [orin_reset, Bool.not_eq_true'] at *
    simp [Bool.of_not_eq_true hi]

-- ==================== Concrete worlds for witnesses ====================

/-- The state at boot: nothing initialized, no pin ever written, empty fault
oracle (every driver call succeeds). -/
def bootWorld : World :=
  { sInit := false
    status := zeroStatus
    pins := []
    dirs := []
    ledcDuty := 0
    ledcCommitted := 0
    boardStrip := none
    touchStrip := none
    faults := []
    callLog := [] }

/-- The state right after a successful `hardware_control_init` at boot. -/
def readyWorld : World :=
  (hardware_control_init bootWorld).2

-- ==================== Claim theorems ====================

/-- C4: when the component is initialized, `fan_set_speed(speed)` for
`speed ≤ 100` succeeds and a subsequent `fan_get_speed()` returns `speed`;
for `speed > 100` it returns `ESP_ERR_INVALID_ARG`, leaves the stored
`fan_speed` unchanged, and issues no PWM or pin write. -/
theorem fan_set_speed_roundtrip_and_reject (w : World) (speed : Nat)
    (hi : w.sInit = true) :
    (speed ≤ 100 →
      (fan_set_speed speed w).1 = .ok ∧
      fan_get_speed (fan_set_speed speed w).2 = speed) ∧
    (speed > 100 →
      (fan_set_speed speed w).1 = .invalidArg ∧
      ((fan_set_speed speed w).2).status.fan_speed = w.status.fan_speed ∧
      ((fan_set_speed speed w).2).ledcDuty = w.ledcDuty ∧
      ((fan_set_speed speed w).2).ledcCommitted = w.ledcCommitted ∧
      ((fan_set_speed speed w).2).pins = w.pins) := by
  constructor
  · intro h
    rw [fan_set_speed_ok speed w hi h]
    simp [fan_get_speed]
  · intro h
    simp [fan_set_speed, hi, h]

/-- Witness for C4 at concrete inputs: speed 42 round-trips, speed 150 is
rejected with the stored speed untouched. -/
theorem fan_set_speed_roundtrip_and_reject_witness :
    (fan_set_speed 42 readyWorld).1 = .ok ∧
    fan_get_speed (fan_set_speed 42 readyWorld).2 = 42 ∧
    (fan_set_speed 150 readyWorld).1 = .invalidArg ∧
    ((fan_set_speed 150 readyWorld).2).status.fan_speed =
      readyWorld.status.fan_speed :=
  ⟨((fan_set_speed_roundtrip_and_reject readyWorld 42 (by decide)).1 (by decide)).1,
   ((fan_set_speed_roundtrip_and_reject readyWorld 42 (by decide)).1 (by decide)).2,
   ((fan_set_speed_roundtrip_and_reject readyWorld 150 (by decide)).2 (by decide)).1,
   ((fan_set_speed_roundtrip_and_reject readyWorld 150 (by decide)).2 (by decide)).2.1⟩

/-- C3: on an initialized component with succeeding pin writes,
`usb_mux_set_target T` followed by `usb_mux_get_target` returns `T` for each
of the three targets; afterwards the two select pins hold the fixed encoding
(ESP32S3: 0/0, AGX: 1/0, N305: 1/1) and the fourth combination (0/1) is never
produced. -/
theorem usb_mux_roundtrip_encoding (w : World) (t : UsbMuxTarget)
    (hi : w.sInit = true) (hf : w.faults = []) :
    (usb_mux_set_target t w).1 = .ok ∧
    usb_mux_get_target (usb_mux_set_target t w).2 = (.ok, t) ∧
    pinLevel (usb_mux_set_target t w).2 ESP32_MUX1_SEL = (muxEncoding t).1 ∧
    pinLevel (usb_mux_set_target t w).2 ESP32_MUX2_SEL = (muxEncoding t).2 ∧
    ¬(pinLevel (usb_mux_set_target t w).2 ESP32_MUX1_SEL = .low ∧
      pinLevel (usb_mux_set_target t w).2 ESP32_MUX2_SEL = .high) := by
  cases t <;>
    simp [usb_mux_set_target, hi, muxEncoding, gpio_set_output, espGpioSetDirection,
      espGpioSetLevel, nextFault, hf, usb_mux_get_target, pinLevel, lookupPin,
      ESP32_MUX1_SEL, ESP32_MUX2_SEL]

/-- Witness for C3 at the AGX target in the freshly initialized world. -/
theorem usb_mux_roundtrip_encoding_witness :
    usb_mux_get_target (usb_mux_set_target .agx readyWorld).2 = (.ok, .agx) ∧
    pinLevel (usb_mux_set_target .agx readyWorld).2 ESP32_MUX1_SEL = .high ∧
    pinLevel (usb_mux_set_target .agx readyWorld).2 ESP32_MUX2_SEL = .low :=
  ⟨(usb_mux_roundtrip_encoding readyWorld .agx (by decide) (by decide)).2.1,
   (usb_mux_roundtrip_encoding readyWorld .agx (by decide) (by decide)).2.2.1,
   (usb_mux_roundtrip_encoding readyWorld .agx (by decide) (by decide)).2.2.2.1⟩

/-- C2: `usb_mux_set_target` writes both select pins before updating the
stored state: on any failure (either pin write, for any target) the stored
`usb_mux_target` is exactly as before the call, and on success both pins have
been written to the target's encoding and only then the target stored. -/
theorem usb_mux_set_target_no_partial_update (w : World) (t : UsbMuxTarget)
    (e : EspErr) (w' : World) (h : usb_mux_set_target t w = (e, w')) :
    (e ≠ .ok → w'.status.usb_mux_target = w.status.usb_mux_target) ∧
    (e = .ok → w'.status.usb_mux_target = t ∧
      pinLevel w' ESP32_MUX1_SEL = (muxEncoding t).1 ∧
      pinLevel w' ESP32_MUX2_SEL = (muxEncoding t).2) := by
  by_cases hi : w.sInit = true
  · rcases h1 : gpio_set_output ESP32_MUX1_SEL (muxEncoding t).1 w with ⟨e1, w1⟩
    have hs1 : w1.status = w.status := by
      have := gpio_set_output_status ESP32_MUX1_SEL (muxEncoding t).1 w
      rwa [h1] at this
    cases e1 with
    | ok =>
      rcases h2 : gpio_set_output ESP32_MUX2_SEL (muxEncoding t).2 w1 with ⟨e2, w2⟩
      have hs2 : w2.status = w1.status := by
        have := gpio_set_output_status ESP32_MUX2_SEL (muxEncoding t).2 w1
        rwa [h2] at this
      have hp1 : w1.pins = (ESP32_MUX1_SEL, (muxEncoding t).1) :: w.pins := by
        have := gpio_set_output_pins_ok ESP32_MUX1_SEL (muxEncoding t).1 w (by rw [h1])
        rwa [h1] at this
      cases e2 with
      | ok =>
        have hp2 : w2.pins = (ESP32_MUX2_SEL, (muxEncoding t).2) :: w1.pins := by
          have := gpio_set_output_pins_ok ESP32_MUX2_SEL (muxEncoding t).2 w1 (by rw [h2])
          rwa [h2] at this
        simp only [usb_mux_set_target, hi, Bool.not_true, Bool.false_eq_true,
          if_false, h1, h2] at h
        injection h with he hw
        subst hw
        constructor
        · intro habs
          exact absurd he.symm habs
        · intro _
          refine ⟨by simp, ?_, ?_⟩ <;>
            simp [pinLevel, hp2, hp1, lookupPin, ESP32_MUX1_SEL, ESP32_MUX2_SEL]
      | invalidArg | invalidState | fail =>
        simp only [usb_mux_set_target, hi, Bool.not_true, Bool.false_eq_true,
          if_false, h1, h2] at h
        injection h with he hw
        subst hw
        constructor
        · intro _
          rw [hs2, hs1]
        · intro habs
          rw [← he] at habs
          exact EspErr.noConfusion habs
    | invalidArg | invalidState | fail =>
      simp only [usb_mux_set_target, hi, Bool.not_true, Bool.false_eq_true,
        if_false, h1] at h
      injection h with he hw
      subst hw
      constructor
      · intro _
        rw [hs1]
      · intro habs
        rw [← he] at habs
        exact EspErr.noConfusion habs
  · have hi' : w.sInit = false := by
      simpa using hi
    simp only [usb_mux_set_target, hi', Bool.not_false, if_true] at h
    injection h with he hw
    subst hw
    constructor
    · intro _
      rfl
    · intro habs
      rw [← he] at habs
      exact EspErr.noConfusion habs

/-- Witness for C2: in the ready world with a fault injected on the second
select-pin write, switching to N305 fails and the stored target is still the
default ESP32S3. -/
theorem usb_mux_set_target_no_partial_update_witness :
    ((usb_mux_set_target .n305
        { readyWorld with faults := [false, false, true] }).2).status.usb_mux_target =
      readyWorld.status.usb_mux_target :=
  (usb_mux_set_target_no_partial_update
      { readyWorld with faults := [false, false, true] } .n305
      (usb_mux_set_target .n305 { readyWorld with faults := [false, false, true] }).1
      (usb_mux_set_target .n305 { readyWorld with faults := [false, false, true] }).2
      rfl).1 (by decide)

/-- C1: `orin_enter_recovery_mode` runs its four steps in strict order —
the final pin-write log shows recovery-high, reset-high, reset-low,
recovery-low, then the two mux writes, in exactly that order.  When every
step succeeds it returns `ESP_OK` with `usb_mux_target = AGX` and the
recovery pin low; when step 2 (the reset) fails it returns exactly the
reset's error and result state — steps 3 and 4 are not performed, so the
recovery pin is still high and the mux target unchanged. -/
theorem orin_enter_recovery_mode_protocol (w : World) (fs : List Bool)
    (hi : w.sInit = true) :
    (w.faults = [] →
      orin_enter_recovery_mode w =
        (.ok, { w with
          status := { w.status with usb_mux_target := .agx }
          pins := (ESP32_MUX2_SEL, .low) :: (ESP32_MUX1_SEL, .high) ::
                  (ORIN_RECOVERY_PIN, .low) :: (ORIN_RESET_PIN, .low) ::
                  (ORIN_RESET_PIN, .high) :: (ORIN_RECOVERY_PIN, .high) :: w.pins
          dirs := (ESP32_MUX2_SEL, true) :: (ESP32_MUX1_SEL, true) ::
                  (ORIN_RESET_PIN, true) :: (ORIN_RESET_PIN, true) :: w.dirs }) ∧
      pinLevel (orin_enter_recovery_mode w).2 ORIN_RECOVERY_PIN = .low ∧
      ((orin_enter_recovery_mode w).2).status.usb_mux_target = .agx) ∧
    (w.faults = false :: fs →
      (orin_reset { w with faults := fs
                           pins := (ORIN_RECOVERY_PIN, .high) :: w.pins }).1 ≠ .ok →
      orin_enter_recovery_mode w =
        orin_reset { w with faults := fs
                            pins := (ORIN_RECOVERY_PIN, .high) :: w.pins } ∧
      ((orin_enter_recovery_mode w).2).status.usb_mux_target =
        w.status.usb_mux_target ∧
      pinLevel (orin_enter_recovery_mode w).2 ORIN_RECOVERY_PIN = .high) := by
  constructor
  · intro hf
    refine ⟨?_, ?_, ?_⟩ <;>
      simp [orin_enter_recovery_mode, orin_reset, usb_mux_set_target, gpio_set_output,
        espGpioSetDirection, espGpioSetLevel, nextFault, hf, hi, muxEncoding,
        pinLevel, lookupPin, ORIN_RECOVERY_PIN, ORIN_RESET_PIN, ESP32_MUX1_SEL,
        ESP32_MUX2_SEL]
  · intro hff hr
    set w1 : World := { w with faults := fs
                               pins := (ORIN_RECOVERY_PIN, .high) :: w.pins } with hw1
    have hstep1 : espGpioSetLevel ORIN_RECOVERY_PIN .high w = (.ok, w1) := by
      simp [espGpioSetLevel, nextFault, hff, hw1]
    rcases hr2 : orin_reset w1 with ⟨e2, w2⟩
    have he2 : e2 ≠ .ok := by
      rw [hr2] at hr
      exact hr
    have hs2 : w2.status = w1.status := by
      have := (orin_reset_coreEq w1).2.1
      rwa [hr2] at this
    have hpin2 : pinLevel w2 ORIN_RECOVERY_PIN = pinLevel w1 ORIN_RECOVERY_PIN := by
      have := orin_reset_pinLevel_recovery w1
      rwa [hr2] at this
    have hrec : orin_enter_recovery_mode w = (e2, w2) := by
      cases e2 with
      | ok => exact absurd rfl he2
      | invalidArg | invalidState | fail =>
        simp only [orin_enter_recovery_mode, hi, Bool.not_true, Bool.false_eq_true,
          if_false, hstep1, hr2]
    refine ⟨hrec, ?_, ?_⟩
    · rw [hrec, hs2, hw1]
    · rw [hrec, hpin2, hw1]
      simp [pinLevel, lookupPin]

/-- Witness for C1: in the ready world the full protocol ends on the AGX
target with the recovery pin low; with a fault injected on the reset pin's
direction configuration (step 2), the mux target is untouched and the
recovery pin is left high. -/
theorem orin_enter_recovery_mode_protocol_witness :
    ((orin_enter_recovery_mode readyWorld).2).status.usb_mux_target = .agx ∧
    pinLevel (orin_enter_recovery_mode readyWorld).2 ORIN_RECOVERY_PIN = .low ∧
    ((orin_enter_recovery_mode
        { readyWorld with faults := [false, true] }).2).status.usb_mux_target =
      ({ readyWorld with faults := [false, true] } : World).status.usb_mux_target ∧
    pinLevel (orin_enter_recovery_mode
        { readyWorld with faults := [false, true] }).2 ORIN_RECOVERY_PIN = .high := by
  refine ⟨?_, ?_, ?_, ?_⟩
  · exact ((orin_enter_recovery_mode_protocol readyWorld [] (by decide)).1 (by decide)).2.2
  · exact ((orin_enter_recovery_mode_protocol readyWorld [] (by decide)).1 (by decide)).2.1
  · exact ((orin_enter_recovery_mode_protocol
      { readyWorld with faults := [false, true] } [true] (by decide)).2
        (by decide) (by decide)).2.1
  · exact ((orin_enter_recovery_mode_protocol
      { readyWorld with faults := [false, true] } [true] (by decide)).2
        (by decide) (by decide)).2.2

/-- C5: for any color `c` and brightness values `b1 ≠ b2` in 0..=100,
`set_color(c); set_brightness(b1); set_brightness(b2)` on an initialized
board strip leaves every pixel equal to `channel(c) * b2 / 100` (integer
truncating division), independently of `b1`, because `set_brightness`
re-renders from the stored color. -/
theorem board_brightness_rerenders (w : World) (c : LedColor) (b1 b2 : Nat)
    (buf : List LedColor) (hi : w.sInit = true) (hb : w.boardStrip = some buf)
    (hlen : buf.length = BOARD_WS2812_NUM) (hf : w.faults = [])
    (h1 : b1 ≤ 100) (h2 : b2 ≤ 100) (hne : b1 ≠ b2) :
    ((board_led_set_brightness b2
        (board_led_set_brightness b1
          (board_led_set_color c w).2).2).2).boardStrip =
      some (List.replicate BOARD_WS2812_NUM (scaleColor c b2)) := by
  have e1 := board_led_set_color_nofault c w buf hi hb hlen hf
  have h1i : ((board_led_set_color c w).2).sInit = true := by
    rw [e1]; exact hi
  have h1b : ((board_led_set_color c w).2).boardStrip =
      some (List.replicate BOARD_WS2812_NUM
        (scaleColor c w.status.board_led_brightness)) := by
    rw [e1]
  have h1f : ((board_led_set_color c w).2).faults = [] := by
    rw [e1]; exact hf
  have h1c : ((board_led_set_color c w).2).status.board_led_color = c := by
    rw [e1]
  have e2 := board_led_set_brightness_nofault b1 ((board_led_set_color c w).2) _
    h1i h1b (by simp) h1f h1
  have h2i : ((board_led_set_brightness b1 (board_led_set_color c w).2).2).sInit =
      true := by
    rw [e2]; exact h1i
  have h2b : ((board_led_set_brightness b1 (board_led_set_color c w).2).2).boardStrip =
      some (List.replicate BOARD_WS2812_NUM
        (scaleColor (((board_led_set_color c w).2).status.board_led_color) b1)) := by
    rw [e2]
  have h2f : ((board_led_set_brightness b1 (board_led_set_color c w).2).2).faults =
      [] := by
    rw [e2]; exact h1f
  have h2c : ((board_led_set_brightness b1
      (board_led_set_color c w).2).2).status.board_led_color = c := by
    rw [e2]; exact h1c
  have e3 := board_led_set_brightness_nofault b2
    ((board_led_set_brightness b1 (board_led_set_color c w).2).2) _
    h2i h2b (by simp) h2f h2
  rw [e3]
  rw [h2c]

/-- Witness for C5: color (200,100,50), brightness 80 then 25, on the ready
world: every pixel ends at (50,25,12) = channel*25/100. -/
theorem board_brightness_rerenders_witness :
    ((board_led_set_brightness 25
        (board_led_set_brightness 80
          (board_led_set_color ⟨200, 100, 50⟩ readyWorld).2).2).2).boardStrip =
      some (List.replicate BOARD_WS2812_NUM (scaleColor ⟨200, 100, 50⟩ 25)) :=
  board_brightness_rerenders readyWorld ⟨200, 100, 50⟩ 80 25
    (List.replicate 28 ⟨0, 0, 0⟩) (by decide) (by decide) (by decide) (by decide)
    (by decide) (by decide) (by decide)

theorem n305_reset_coreEq (w : World) : CoreEq w ((n305_reset w).2) := by
  by_cases hi : w.sInit
  · rcases h1 : gpio_set_output N305_RESET_PIN .high w with ⟨e1, w1⟩
    have hc1 : CoreEq w w1 := by
      have := gpio_set_output_coreEq N305_RESET_PIN .high w
      rwa [h1] at this
    cases e1 <;>
      simp only [n305_reset, hi, Bool.not_true, Bool.false_eq_true, if_false, h1] <;>
      first
        | exact hc1
        | exact coreEq_trans hc1 (gpio_set_output_coreEq N305_RESET_PIN .low w1)
  · simp only [n305_reset, Bool.not_eq_true'] at *
    simp [Bool.of_not_eq_true hi, coreEq_refl]

theorem n305_power_toggle_nofault (w : World) (hi : w.sInit = true)
    (hf : w.faults = []) :
    n305_power_toggle w =
      (.ok, { w with
        dirs := (N305_POWER_BTN_PIN, true) :: (N305_POWER_BTN_PIN, true) :: w.dirs
        pins := (N305_POWER_BTN_PIN, .low) :: (N305_POWER_BTN_PIN, .high) :: w.pins
        status := { w.status with n305_power_state :=
          if w.status.n305_power_state = .on then .off else .on } }) := by
  by_cases hs : w.status.n305_power_state = .on <;>
    simp [n305_power_toggle, gpio_set_output, espGpioSetDirection, espGpioSetLevel,
      nextFault, hf, hi, hs]

/-- C9: a successful `n305_power_toggle` flips the stored state On↔Off with
Unknown toggling to On, so two successful toggles from Unknown yield On then
Off; `n305_reset` never changes the stored power state. -/
theorem n305_power_state_machine (w : World) (hi : w.sInit = true)
    (hf : w.faults = []) :
    ((n305_power_toggle w).1 = .ok ∧
      ((n305_power_toggle w).2).status.n305_power_state =
        (if w.status.n305_power_state = .on then .off else .on)) ∧
    (w.status.n305_power_state = .unknown →
      ((n305_power_toggle w).2).status.n305_power_state = .on ∧
      ((n305_power_toggle (n305_power_toggle w).2).2).status.n305_power_state =
        .off) ∧
    (∀ v : World, ((n305_reset v).2).status.n305_power_state =
      v.status.n305_power_state) := by
  have e1 := n305_power_toggle_nofault w hi hf
  refine ⟨⟨by rw [e1], by rw [e1]⟩, ?_, ?_⟩
  · intro hs
    have h1 : ((n305_power_toggle w).2).status.n305_power_state = .on := by
      rw [e1]
      simp [hs]
    refine ⟨h1, ?_⟩
    have e2 := n305_power_toggle_nofault ((n305_power_toggle w).2)
      (by rw [e1]; exact hi) (by rw [e1]; exact hf)
    rw [e2, h1]
    simp
  · intro v
    exact congrArg HardwareStatus.n305_power_state (n305_reset_coreEq v).2.1.symm |>.symm

/-- Witness for C9: two successful toggles from the ready world's Unknown
state give On then Off, and a reset leaves the state alone. -/
theorem n305_power_state_machine_witness :
    ((n305_power_toggle readyWorld).2).status.n305_power_state = .on ∧
    ((n305_power_toggle (n305_power_toggle readyWorld).2).2).status.n305_power_state
      = .off ∧
    ((n305_reset readyWorld).2).status.n305_power_state =
      readyWorld.status.n305_power_state :=
  ⟨((n305_power_state_machine readyWorld (by decide) (by decide)).2.1 (by decide)).1,
   ((n305_power_state_machine readyWorld (by decide) (by decide)).2.1 (by decide)).2,
   (n305_power_state_machine readyWorld (by decide) (by decide)).2.2 readyWorld⟩

/-- C10: `hardware_control_init` on an already-initialized component returns
`ESP_OK` and leaves the whole state untouched (no re-initialization), and
`hardware_control_deinit` on a non-initialized component returns `ESP_OK`
touching nothing. -/
theorem init_deinit_idempotent_at_boundary (w : World) :
    (w.sInit = true → hardware_control_init w = (.ok, w)) ∧
    (w.sInit = false → hardware_control_deinit w = (.ok, w)) := by
  constructor
  · intro h
    simp [hardware_control_init, h]
  · intro h
    simp [hardware_control_deinit, h]

/-- Witness for C10 at the ready (initialized) and boot (uninitialized)
worlds. -/
theorem init_deinit_idempotent_at_boundary_witness :
    hardware_control_init readyWorld = (.ok, readyWorld) ∧
    hardware_control_deinit bootWorld = (.ok, bootWorld) :=
  ⟨(init_deinit_idempotent_at_boundary readyWorld).1 (by decide),
   (init_deinit_idempotent_at_boundary bootWorld).2 (by decide)⟩

/-- Result of a mutating call that was rejected before touching anything
observable: `ESP_ERR_INVALID_STATE`, status record unchanged, no pin
written. -/
def RejectedUntouched (r : EspErr × World) (w : World) : Prop :=
  r.1 = .invalidState ∧ r.2.status = w.status ∧ r.2.pins = w.pins

/-- Counterexample to C8 as stated: `gpio_set_output` (and with it
`gpio_toggle_output`) performs no initialization check — on the uninitialized
boot world it returns `ESP_OK`, not `ESP_ERR_INVALID_STATE`, and the pin
level actually changes. -/
theorem gpio_set_output_ignores_init :
    bootWorld.sInit = false ∧
    (gpio_set_output 5 .high bootWorld).1 = .ok ∧
    ¬(gpio_set_output 5 .high bootWorld).1 = .invalidState ∧
    pinLevel bootWorld 5 = .low ∧
    pinLevel (gpio_set_output 5 .high bootWorld).2 5 = .high := by
  decide

/-- C8 (amended): every mutating operation that touches the status record —
the fan/LED setters, the USB-mux setter and all power-sequencer operations —
fails fast with `ESP_ERR_INVALID_STATE` when the component is not
initialized, changing neither the status record nor any pin; the raw GPIO
output helpers (`gpio_set_output`, `gpio_toggle_output`) are the exception:
they write the pin without any initialization check. -/
theorem setters_require_init (w : World) (h : w.sInit = false)
    (s b : Nat) (c : LedColor) (t : UsbMuxTarget) :
    RejectedUntouched (fan_set_speed s w) w ∧
    RejectedUntouched (board_led_set_color c w) w ∧
    RejectedUntouched (board_led_set_brightness b w) w ∧
    RejectedUntouched (touch_led_set_color c w) w ∧
    RejectedUntouched (touch_led_set_brightness b w) w ∧
    RejectedUntouched (usb_mux_set_target t w) w ∧
    RejectedUntouched (orin_power_on w) w ∧
    RejectedUntouched (orin_power_off w) w ∧
    RejectedUntouched (orin_reset w) w ∧
    RejectedUntouched (orin_enter_recovery_mode w) w ∧
    RejectedUntouched (n305_power_toggle w) w ∧
    RejectedUntouched (n305_reset w) w := by
  refine ⟨?_, ?_, ?_, ?_, ?_, ?_, ?_, ?_, ?_, ?_, ?_, ?_⟩
  · simp [RejectedUntouched, fan_set_speed, h]
  · simp [RejectedUntouched, board_led_set_color, h]
  · simp [RejectedUntouched, board_led_set_brightness, h]
  · simp [RejectedUntouched, touch_led_set_color, h]
  · simp [RejectedUntouched, touch_led_set_brightness, h]
  · simp [RejectedUntouched, usb_mux_set_target, h]
  · simp [RejectedUntouched, orin_power_on, h]
  · simp [RejectedUntouched, orin_power_off, h]
  · simp [RejectedUntouched, orin_reset, h]
  · simp [RejectedUntouched, orin_enter_recovery_mode, h]
  · simp [RejectedUntouched, n305_power_toggle, h]
  · simp [RejectedUntouched, n305_reset, h]

/-- Witness for the amended C8 at the boot world with concrete arguments. -/
theorem setters_require_init_witness :
    RejectedUntouched (fan_set_speed 50 bootWorld) bootWorld ∧
    RejectedUntouched (usb_mux_set_target .agx bootWorld) bootWorld ∧
    RejectedUntouched (orin_enter_recovery_mode bootWorld) bootWorld :=
  ⟨(setters_require_init bootWorld (by decide) 50 80 ⟨1, 2, 3⟩ .agx).1,
   (setters_require_init bootWorld (by decide) 50 80 ⟨1, 2, 3⟩ .agx).2.2.2.2.2.1,
   (setters_require_init bootWorld (by decide) 50 80 ⟨1, 2, 3⟩ .agx).2.2.2.2.2.2.2.2.2.1⟩

-- Fault-free evaluation of the orchestrator's shutdown and restore chains.

theorem shutdownHw_nofault (w : World) (hi : w.sInit = true) (hf : w.faults = [])
    (bufB bufT : List LedColor)
    (hbs : w.boardStrip = some bufB) (hlenB : bufB.length = BOARD_WS2812_NUM)
    (hts : w.touchStrip = some bufT) (hlenT : bufT.length = TOUCH_WS2812_NUM) :
    (touch_led_turn_off (board_led_turn_off (fan_stop w).2).2).2 =
      { w with
        callLog := w.callLog ++
          [.fanSpeed 0, .boardColor ⟨0, 0, 0⟩, .touchColor ⟨0, 0, 0⟩]
        status := { w.status with
          fan_speed := 0
          board_led_color := ⟨0, 0, 0⟩
          touch_led_color := ⟨0, 0, 0⟩ }
        ledcDuty := 0
        ledcCommitted := 0
        boardStrip := some (List.replicate BOARD_WS2812_NUM ⟨0, 0, 0⟩)
        touchStrip := some (List.replicate TOUCH_WS2812_NUM ⟨0, 0, 0⟩) } := by
  have e1 : fan_stop w = (.ok, { w with
      callLog := w.callLog ++ [.fanSpeed 0]
      status := { w.status with fan_speed := 0 }
      ledcDuty := 0
      ledcCommitted := 0 }) := by
    rw [fan_stop, fan_set_speed_ok 0 w hi (by omega)]
  have h1i : ((fan_stop w).2).sInit = true := by
    rw [e1]; exact hi
  have h1f : ((fan_stop w).2).faults = [] := by
    rw [e1]; exact hf
  have h1b : ((fan_stop w).2).boardStrip = some bufB := by
    rw [e1]; exact hbs
  have e2 : board_led_turn_off (fan_stop w).2 =
      (.ok, { (fan_stop w).2 with
        callLog := ((fan_stop w).2).callLog ++ [.boardColor ⟨0, 0, 0⟩]
        status := { ((fan_stop w).2).status with board_led_color := ⟨0, 0, 0⟩ }
        boardStrip := some (List.replicate BOARD_WS2812_NUM (⟨0, 0, 0⟩ : LedColor)) }) := by
    rw [board_led_turn_off,
      board_led_set_color_nofault ⟨0, 0, 0⟩ ((fan_stop w).2) bufB h1i h1b hlenB h1f]
    simp [scaleColor]
  have h2i : ((board_led_turn_off (fan_stop w).2).2).sInit = true := by
    rw [e2]; exact h1i
  have h2f : ((board_led_turn_off (fan_stop w).2).2).faults = [] := by
    rw [e2]; exact h1f
  have h2t : ((board_led_turn_off (fan_stop w).2).2).touchStrip = some bufT := by
    rw [e2, e1]; exact hts
  have e3 : touch_led_turn_off (board_led_turn_off (fan_stop w).2).2 =
      (.ok, { (board_led_turn_off (fan_stop w).2).2 with
        callLog := ((board_led_turn_off (fan_stop w).2).2).callLog ++
          [.touchColor ⟨0, 0, 0⟩]
        status := { ((board_led_turn_off (fan_stop w).2).2).status with
          touch_led_color := ⟨0, 0, 0⟩ }
        touchStrip := some (List.replicate TOUCH_WS2812_NUM (⟨0, 0, 0⟩ : LedColor)) }) := by
    rw [touch_led_turn_off,
      touch_led_set_color_nofault ⟨0, 0, 0⟩ ((board_led_turn_off (fan_stop w).2).2)
        bufT h2i h2t hlenT h2f]
    simp [scaleColor]
  rw [e3, e2, e1]
  simp

theorem restoreHw_nofault (S : HardwareStatus) (v : World)
    (hi : v.sInit = true) (hf : v.faults = [])
    (bufB bufT : List LedColor)
    (hbs : v.boardStrip = some bufB) (hlenB : bufB.length = BOARD_WS2812_NUM)
    (hts : v.touchStrip = some bufT) (hlenT : bufT.length = TOUCH_WS2812_NUM)
    (hfan : S.fan_speed ≤ 100) (hbb : S.board_led_brightness ≤ 100)
    (htb : S.touch_led_brightness ≤ 100) :
    (touch_led_set_brightness S.touch_led_brightness
      (touch_led_set_color S.touch_led_color
        (board_led_set_brightness S.board_led_brightness
          (board_led_set_color S.board_led_color
            (fan_set_speed S.fan_speed v).2).2).2).2).2 =
      { v with
        callLog := v.callLog ++
          [.fanSpeed S.fan_speed, .boardColor S.board_led_color,
           .boardBright S.board_led_brightness, .touchColor S.touch_led_color,
           .touchBright S.touch_led_brightness]
        status := { v.status with
          fan_speed := S.fan_speed
          board_led_color := S.board_led_color
          board_led_brightness := S.board_led_brightness
          touch_led_color := S.touch_led_color
          touch_led_brightness := S.touch_led_brightness }
        ledcDuty := S.fan_speed * 255 / 100
        ledcCommitted := S.fan_speed * 255 / 100
        boardStrip := some (List.replicate BOARD_WS2812_NUM
          (scaleColor S.board_led_color S.board_led_brightness))
        touchStrip := some (List.replicate TOUCH_WS2812_NUM
          (scaleColor S.touch_led_color S.touch_led_brightness)) } := by
  have e1 := fan_set_speed_ok S.fan_speed v hi hfan
  have h1i : ((fan_set_speed S.fan_speed v).2).sInit = true := by
    rw [e1]; exact hi
  have h1f : ((fan_set_speed S.fan_speed v).2).faults = [] := by
    rw [e1]; exact hf
  have h1b : ((fan_set_speed S.fan_speed v).2).boardStrip = some bufB := by
    rw [e1]; exact hbs
  have e2 := board_led_set_color_nofault S.board_led_color
    ((fan_set_speed S.fan_speed v).2) bufB h1i h1b hlenB h1f
  have h2i : ((board_led_set_color S.board_led_color
      (fan_set_speed S.fan_speed v).2).2).sInit = true := by
    rw [e2]; exact h1i
  have h2f : ((board_led_set_color S.board_led_color
      (fan_set_speed S.fan_speed v).2).2).faults = [] := by
    rw [e2]; exact h1f
  have h2b : ((board_led_set_color S.board_led_color
      (fan_set_speed S.fan_speed v).2).2).boardStrip =
      some (List.replicate BOARD_WS2812_NUM (scaleColor S.board_led_color
        (((fan_set_speed S.fan_speed v).2).status.board_led_brightness))) := by
    rw [e2]
  have e3 := board_led_set_brightness_nofault S.board_led_brightness
    ((board_led_set_color S.board_led_color (fan_set_speed S.fan_speed v).2).2) _
    h2i h2b (by simp) h2f hbb
  have h3i : ((board_led_set_brightness S.board_led_brightness
      (board_led_set_color S.board_led_color
        (fan_set_speed S.fan_speed v).2).2).2).sInit = true := by
    rw [e3]; exact h2i
  have h3f : ((board_led_set_brightness S.board_led_brightness
      (board_led_set_color S.board_led_color
        (fan_set_speed S.fan_speed v).2).2).2).faults = [] := by
    rw [e3]; exact h2f
  have h3t : ((board_led_set_brightness S.board_led_brightness
      (board_led_set_color S.board_led_color
        (fan_set_speed S.fan_speed v).2).2).2).touchStrip = some bufT := by
    rw [e3, e2, e1]; exact hts
  have e4 := touch_led_set_color_nofault S.touch_led_color
    ((board_led_set_brightness S.board_led_brightness
      (board_led_set_color S.board_led_color
        (fan_set_speed S.fan_speed v).2).2).2) bufT h3i h3t hlenT h3f
  have h4i : ((touch_led_set_color S.touch_led_color
      (board_led_set_brightness S.board_led_brightness
        (board_led_set_color S.board_led_color
          (fan_set_speed S.fan_speed v).2).2).2).2).sInit = true := by
    rw [e4]; exact h3i
  have h4f : ((touch_led_set_color S.touch_led_color
      (board_led_set_brightness S.board_led_brightness
        (board_led_set_color S.board_led_color
          (fan_set_speed S.fan_speed v).2).2).2).2).faults = [] := by
    rw [e4]; exact h3f
  have h4t : ((touch_led_set_color S.touch_led_color
      (board_led_set_brightness S.board_led_brightness
        (board_led_set_color S.board_led_color
          (fan_set_speed S.fan_speed v).2).2).2).2).touchStrip =
      some (List.replicate TOUCH_WS2812_NUM (scaleColor S.touch_led_color
        (((board_led_set_brightness S.board_led_brightness
          (board_led_set_color S.board_led_color
            (fan_set_speed S.fan_speed v).2).2).2).status.touch_led_brightness))) := by
    rw [e4]
  have e5 := touch_led_set_brightness_nofault S.touch_led_brightness
    ((touch_led_set_color S.touch_led_color
      (board_led_set_brightness S.board_led_brightness
        (board_led_set_color S.board_led_color
          (fan_set_speed S.fan_speed v).2).2).2).2) _
    h4i h4t (by simp) h4f htb
  rw [e5, e4, e3, e2, e1]
  simp

theorem device_enter_sleep_mode_parts (x : DevWorld) (h1 : x.devInit = true)
    (h2 : x.enableHw = true) (hi : x.hw.sInit = true) :
    ((device_enter_sleep_mode x).2).hw =
      (touch_led_turn_off (board_led_turn_off (fan_stop x.hw).2).2).2 ∧
    ((device_enter_sleep_mode x).2).devInit = x.devInit ∧
    ((device_enter_sleep_mode x).2).enableHw = x.enableHw ∧
    ((device_enter_sleep_mode x).2).enableMon = x.enableMon ∧
    ((device_enter_sleep_mode x).2).lastStatus =
      ⟨true, x.hw.status, x.enableMon && x.monInit⟩ := by
  simp only [device_enter_sleep_mode, device_get_full_status, device_shutdown_all,
    h1, h2, hi, Bool.not_true, Bool.false_eq_true, if_false, Bool.and_self]
  by_cases hm : x.enableMon = true ∧ x.monRunning = true <;> simp [hm]

theorem device_wake_up_hw (x : DevWorld) (h1 : x.devInit = true)
    (h2 : x.enableHw = true) (h3 : x.lastStatus.hardware_available = true) :
    ((device_wake_up x).2).hw =
      (touch_led_set_brightness x.lastStatus.hardware.touch_led_brightness
        (touch_led_set_color x.lastStatus.hardware.touch_led_color
          (board_led_set_brightness x.lastStatus.hardware.board_led_brightness
            (board_led_set_color x.lastStatus.hardware.board_led_color
              (fan_set_speed x.lastStatus.hardware.fan_speed x.hw).2).2).2).2).2 := by
  simp only [device_wake_up, h1, Bool.not_true, Bool.false_eq_true, if_false]
  split <;> simp [h2, h3]

/-- C6 (amended): for every reachable state with hardware control enabled
and initialized (status fields in range, strip buffers of the fixed lengths,
arbitrary pixel contents), `device_enter_sleep_mode()` followed by
`device_wake_up()` restores fan speed, both LED colors and both brightness
values exactly equal to their pre-sleep values, and leaves each strip
re-rendered from the restored color and brightness
(`channel * brightness / 100` on every pixel) — which equals the pre-sleep
written pixels exactly when those were the solid render of the stored
color/brightness, but not after a per-pixel effect such as rainbow. -/
theorem sleep_wake_restores_from_snapshot (d : DevWorld)
    (hd : d.devInit = true) (hhw : d.enableHw = true) (hi : d.hw.sInit = true)
    (hf : d.hw.faults = [])
    (hfan : d.hw.status.fan_speed ≤ 100)
    (hbb : d.hw.status.board_led_brightness ≤ 100)
    (htb : d.hw.status.touch_led_brightness ≤ 100)
    (bufB bufT : List LedColor)
    (hbs : d.hw.boardStrip = some bufB) (hlenB : bufB.length = BOARD_WS2812_NUM)
    (hts : d.hw.touchStrip = some bufT) (hlenT : bufT.length = TOUCH_WS2812_NUM) :
    (((device_wake_up (device_enter_sleep_mode d).2).2).hw).status.fan_speed =
      d.hw.status.fan_speed ∧
    (((device_wake_up (device_enter_sleep_mode d).2).2).hw).status.board_led_color =
      d.hw.status.board_led_color ∧
    (((device_wake_up (device_enter_sleep_mode d).2).2).hw).status.board_led_brightness =
      d.hw.status.board_led_brightness ∧
    (((device_wake_up (device_enter_sleep_mode d).2).2).hw).status.touch_led_color =
      d.hw.status.touch_led_color ∧
    (((device_wake_up (device_enter_sleep_mode d).2).2).hw).status.touch_led_brightness =
      d.hw.status.touch_led_brightness ∧
    (((device_wake_up (device_enter_sleep_mode d).2).2).hw).boardStrip =
      some (List.replicate BOARD_WS2812_NUM
        (scaleColor d.hw.status.board_led_color d.hw.status.board_led_brightness)) ∧
    (((device_wake_up (device_enter_sleep_mode d).2).2).hw).touchStrip =
      some (List.replicate TOUCH_WS2812_NUM
        (scaleColor d.hw.status.touch_led_color d.hw.status.touch_led_brightness)) := by
  obtain ⟨hsw, hsdev, hsehw, hsmon, hslast⟩ :=
    device_enter_sleep_mode_parts d hd hhw hi
  set W3 := (touch_led_turn_off (board_led_turn_off (fan_stop d.hw).2).2).2 with hW3
  have eW3 := shutdownHw_nofault d.hw hi hf bufB bufT hbs hlenB hts hlenT
  rw [← hW3] at eW3
  have hwi : ((device_enter_sleep_mode d).2).devInit = true := by
    rw [hsdev, hd]
  have hwe : ((device_enter_sleep_mode d).2).enableHw = true := by
    rw [hsehw, hhw]
  have hwa : ((device_enter_sleep_mode d).2).lastStatus.hardware_available = true := by
    rw [hslast]
  have hlastH : ((device_enter_sleep_mode d).2).lastStatus.hardware = d.hw.status := by
    rw [hslast]
  have ewake := device_wake_up_hw ((device_enter_sleep_mode d).2) hwi hwe hwa
  rw [hlastH, hsw] at ewake
  have h3i : W3.sInit = true := by
    rw [eW3]; exact hi
  have h3f : W3.faults = [] := by
    rw [eW3]; exact hf
  have h3b : W3.boardStrip =
      some (List.replicate BOARD_WS2812_NUM (⟨0, 0, 0⟩ : LedColor)) := by
    rw [eW3]
  have h3t : W3.touchStrip =
      some (List.replicate TOUCH_WS2812_NUM (⟨0, 0, 0⟩ : LedColor)) := by
    rw [eW3]
  have erest := restoreHw_nofault d.hw.status W3 h3i h3f _ _ h3b (by simp) h3t
    (by simp) hfan hbb htb
  rw [erest, eW3] at ewake
  rw [ewake]
  refine ⟨?_, ?_, ?_, ?_, ?_, ?_, ?_⟩ <;> simp

/-- An NVS store with no keys present. -/
def emptyNvs : Nvs :=
  { fan_speed := none
    board_led_r := none
    board_led_g := none
    board_led_b := none
    board_bright := none
    touch_led_r := none
    touch_led_g := none
    touch_led_b := none
    touch_bright := none }

/-- A reachable pre-sleep state built by the embedded operations themselves:
fan 42, stored board color (255,0,0) at the default 50% brightness, and then
the rainbow effect — whose per-pixel values are *not* the render of the
stored color. -/
def rainbowWorld : World :=
  (board_led_set_effect .rainbow
    (board_led_set_color ⟨255, 0, 0⟩ (fan_set_speed 42 readyWorld).2).2).2

/-- A fully enabled device world over `rainbowWorld`. -/
def rainbowDev : DevWorld :=
  { hw := rainbowWorld
    devInit := true
    enableHw := true
    enableMon := true
    monInit := true
    monRunning := true
    lastStatus := ⟨false, zeroStatus, false⟩
    nvs := emptyNvs }

/-- Counterexample to C6 as stated: in the reachable rainbow state, pixel 1
of the board strip holds (127,25,0) before sleep, but `device_wake_up`
re-renders from the stored solid color, leaving it at (127,0,0) — the
pre-sleep written pixel values are not reproduced. -/
theorem sleep_wake_pixels_not_reproduced :
    rainbowDev.devInit = true ∧
    rainbowDev.enableHw = true ∧
    rainbowDev.hw.sInit = true ∧
    rainbowDev.hw.faults = [] ∧
    (rainbowDev.hw.boardStrip.getD [])[1]? = some ⟨127, 25, 0⟩ ∧
    ((((device_wake_up
        (device_enter_sleep_mode rainbowDev).2).2).hw).boardStrip.getD [])[1]? =
      some ⟨127, 0, 0⟩ ∧
    ¬(((device_wake_up (device_enter_sleep_mode rainbowDev).2).2).hw).boardStrip =
      rainbowDev.hw.boardStrip := by
  decide

/-- Witness for the amended C6: from the rainbow state, sleep/wake restores
fan 42, color (255,0,0) and brightness 50 exactly, and leaves the board strip
re-rendered from the restored color and brightness. -/
theorem sleep_wake_restores_from_snapshot_witness :
    (((device_wake_up (device_enter_sleep_mode rainbowDev).2).2).hw).status.fan_speed =
      rainbowDev.hw.status.fan_speed ∧
    (((device_wake_up (device_enter_sleep_mode rainbowDev).2).2).hw).status.board_led_color =
      rainbowDev.hw.status.board_led_color ∧
    (((device_wake_up (device_enter_sleep_mode rainbowDev).2).2).hw).status.board_led_brightness =
      rainbowDev.hw.status.board_led_brightness ∧
    (((device_wake_up (device_enter_sleep_mode rainbowDev).2).2).hw).status.touch_led_color =
      rainbowDev.hw.status.touch_led_color ∧
    (((device_wake_up (device_enter_sleep_mode rainbowDev).2).2).hw).status.touch_led_brightness =
      rainbowDev.hw.status.touch_led_brightness ∧
    (((device_wake_up (device_enter_sleep_mode rainbowDev).2).2).hw).boardStrip =
      some (List.replicate BOARD_WS2812_NUM
        (scaleColor rainbowDev.hw.status.board_led_color
          rainbowDev.hw.status.board_led_brightness)) ∧
    (((device_wake_up (device_enter_sleep_mode rainbowDev).2).2).hw).touchStrip =
      some (List.replicate TOUCH_WS2812_NUM
        (scaleColor rainbowDev.hw.status.touch_led_color
          rainbowDev.hw.status.touch_led_brightness)) :=
  sleep_wake_restores_from_snapshot rainbowDev (by decide) (by decide) (by decide)
    (by decide) (by decide) (by decide) (by decide)
    (rainbowWorld.boardStrip.getD []) (rainbowWorld.touchStrip.getD [])
    (by decide) (by decide) (by decide) (by decide)

-- Ghost-log lemmas: each core setter appends exactly one record of its
-- invocation, on every path (init failure, range rejection, render failure).

theorem setPixelsGo_callLog (final : LedColor) (l : List Nat) :
    ∀ (buf : List LedColor) (w : World),
      ((setPixelsGo final l buf w).2.2).callLog = w.callLog := by
  induction l with
  | nil => intro buf w; simp [setPixelsGo]
  | cons i rest ih =>
    intro buf w
    rw [setPixelsGo]
    rcases hnf : nextFault w with ⟨f, w1⟩
    have hc : w1.callLog = w.callLog := by
      have := (nextFault_coreEq w).2.2.2.2.2.2
      rwa [hnf] at this
    cases f <;> simp [hc, ih (buf.set i final) w1]

theorem setStripBuf_callLog (w : World) (sid : StripId) (buf : List LedColor) :
    (setStripBuf w sid buf).callLog = w.callLog := by
  cases sid <;> simp [setStripBuf]

theorem apply_led_color_callLog (sid : StripId) (c : LedColor) (b n : Nat)
    (w : World) :
    ((apply_led_color sid c b n w).2).callLog = w.callLog := by
  rw [apply_led_color]
  cases hb : stripBuf w sid with
  | none => simp
  | some buf =>
    rcases hgo : setPixelsGo ⟨c.red * b / 100, c.green * b / 100, c.blue * b / 100⟩
        (List.range n) buf w with ⟨e, buf1, w1⟩
    have hc1 : w1.callLog = w.callLog := by
      have := setPixelsGo_callLog ⟨c.red * b / 100, c.green * b / 100, c.blue * b / 100⟩
        (List.range n) buf w
      rwa [hgo] at this
    rcases hnf : nextFault w1 with ⟨f, w2⟩
    have hc2 : w2.callLog = w1.callLog := by
      have := (nextFault_coreEq w1).2.2.2.2.2.2
      rwa [hnf] at this
    cases e <;> cases f <;>
      simp [hgo, hnf, setStripBuf_callLog, hc1, hc2]

theorem fan_set_speed_callLog (s : Nat) (w : World) :
    ((fan_set_speed s w).2).callLog = w.callLog ++ [.fanSpeed s] := by
  cases hi : w.sInit <;> by_cases hr : s > 100 <;> simp [fan_set_speed, hi, hr]

theorem board_led_set_color_callLog (c : LedColor) (w : World) :
    ((board_led_set_color c w).2).callLog = w.callLog ++ [.boardColor c] := by
  cases hi : w.sInit <;>
    simp [board_led_set_color, hi, apply_led_color_callLog]

theorem board_led_set_brightness_callLog (b : Nat) (w : World) :
    ((board_led_set_brightness b w).2).callLog = w.callLog ++ [.boardBright b] := by
  cases hi : w.sInit <;> by_cases hr : b > 100 <;>
    simp [board_led_set_brightness, hi, hr, apply_led_color_callLog]

theorem touch_led_set_color_callLog (c : LedColor) (w : World) :
    ((touch_led_set_color c w).2).callLog = w.callLog ++ [.touchColor c] := by
  cases hi : w.sInit <;>
    simp [touch_led_set_color, hi, apply_led_color_callLog]

theorem touch_led_set_brightness_callLog (b : Nat) (w : World) :
    ((touch_led_set_brightness b w).2).callLog = w.callLog ++ [.touchBright b] := by
  cases hi : w.sInit <;> by_cases hr : b > 100 <;>
    simp [touch_led_set_brightness, hi, hr, apply_led_color_callLog]

/-- The call order the specification asserts for the config-load path — a
transcription of the spec's words "fan → board color → board brightness →
touch color → touch brightness" (with arbitrary argument values), to be
compared with the order the embedded code actually produces. -/
def specLoadCallOrder : List CoreCall → Bool
  | [.fanSpeed _, .boardColor _, .boardBright _, .touchColor _, .touchBright _] =>
    true
  | _ => false

/-- A device world over the freshly initialized hardware with an empty NVS. -/
def loadDev : DevWorld :=
  { hw := readyWorld
    devInit := true
    enableHw := true
    enableMon := false
    monInit := false
    monRunning := false
    lastStatus := ⟨false, zeroStatus, false⟩
    nvs := emptyNvs }

/-- Counterexample to C7 as stated: on a concrete load with every key
missing, the persistence path invokes fan speed, then board *brightness*,
then board color, then touch *brightness*, then touch color — not the
claimed fan, board color, board brightness, touch color, touch brightness
order. -/
theorem load_config_order_counterexample :
    ((load_hardware_config_from_nvs loadDev).2).hw.callLog =
      [.fanSpeed 0, .boardBright 50, .boardColor ⟨0, 0, 0⟩,
       .touchBright 50, .touchColor ⟨0, 0, 0⟩] ∧
    specLoadCallOrder ((load_hardware_config_from_nvs loadDev).2).hw.callLog =
      false := by
  decide

/-- C7 (amended): on config load with hardware control enabled and a
successful NVS open, the persistence path invokes the core setters in the
order fan speed, board brightness, board color, touch brightness, touch
color, using the stored defaults (fan 0, colors (0,0,0), brightness 50) for
any key missing from storage. -/
theorem load_config_call_order (d : DevWorld) (hhw : d.enableHw = true)
    (hf : d.hw.faults = []) :
    ((load_hardware_config_from_nvs d).2).hw.callLog = d.hw.callLog ++
      [.fanSpeed (d.nvs.fan_speed.getD 0),
       .boardBright (d.nvs.board_bright.getD 50),
       .boardColor ⟨d.nvs.board_led_r.getD 0, d.nvs.board_led_g.getD 0,
         d.nvs.board_led_b.getD 0⟩,
       .touchBright (d.nvs.touch_bright.getD 50),
       .touchColor ⟨d.nvs.touch_led_r.getD 0, d.nvs.touch_led_g.getD 0,
         d.nvs.touch_led_b.getD 0⟩] := by
  simp [load_hardware_config_from_nvs, hhw, nextFault, hf,
    touch_led_set_brightness_callLog, touch_led_set_color_callLog,
    board_led_set_color_callLog, board_led_set_brightness_callLog,
    fan_set_speed_callLog]

/-- Witness for the amended C7: a load with fan 35 and board brightness 90
stored but all other keys missing logs exactly the code's order with stored
defaults filled in. -/
theorem load_config_call_order_witness :
    ((load_hardware_config_from_nvs
        { loadDev with nvs := { emptyNvs with fan_speed := some 35
                                              board_bright := some 90 } }).2).hw.callLog =
      ({ loadDev with nvs := { emptyNvs with fan_speed := some 35
                                             board_bright := some 90 } } : DevWorld).hw.callLog ++
      [.fanSpeed 35, .boardBright 90, .boardColor ⟨0, 0, 0⟩,
       .touchBright 50, .touchColor ⟨0, 0, 0⟩] :=
  load_config_call_order
    { loadDev with nvs := { emptyNvs with fan_speed := some 35
                                          board_bright := some 90 } }
    (by decide) (by decide)
